import Mathlib

/-!
Verification development for the gRPC server core of `grpc-node`
(`packages/grpc-js/src/server.ts`), as a shallow embedding in Lean 4.

The embedding translates the server's pure decision logic directly from the
source: the handler registry (`register`, `unregister`, `addService`), the
bind engine (`bindSpecificPort`, `bindWildcardPort`, the resolver listener's
reply policy), the synchronous validation phase of `bindAsync`, the
per-stream dispatch prologue of `_setupHandlers`, and the shutdown
operations (`tryShutdown`, `forceShutdown`).  External collaborators
(the HTTP/2 `listen` outcome, thrown dispatch errors, URI parsing) are
modelled as explicit oracle parameters, so every definition is executable.
-/

namespace GrpcJs

/-- gRPC status codes used by the server core (from constants.ts).  Only the
codes the server core produces are modelled; they are compared symbolically. -/
inductive Status where
  | OK
  | UNIMPLEMENTED
  | INTERNAL
deriving DecidableEq

/-- Log verbosity levels (from constants.ts, LogVerbosity). -/
inductive LogVerbosity where
  | DEBUG
  | INFO
  | ERROR
deriving DecidableEq

/-- A resolved subchannel address: either a TCP host/port pair or a Unix
socket path (subchannel-address.ts). -/
inductive SubchannelAddress where
  | tcp (host : String) (port : Nat)
  | unix (path : String)
deriving DecidableEq

/-- Mirrors isTcpSubchannelAddress: an address is TCP iff it has a port. -/
def isTcpSubchannelAddress : SubchannelAddress → Bool
  | .tcp _ _ => true
  | .unix _ => false

/-- The port of an address, as the source reads `boundAddress.port` after
casting to AddressInfo.  A Unix path has no port; the source's wildcard path
never receives one (the cast would yield undefined), modelled as 0. -/
def subchannelPort : SubchannelAddress → Nat
  | .tcp _ p => p
  | .unix _ => 0

/-- The four streaming shapes (HandlerType in server-call.ts). -/
inductive HandlerType where
  | unary
  | clientStream
  | serverStream
  | bidi
deriving DecidableEq

/-- The Partial ServiceError built by getUnimplementedStatusResponse:
a status code, a details string, and empty metadata. -/
structure UnimplementedResponse where
  code : Status
  details : String
  metadata : List (String × String)
deriving DecidableEq

/-- Mirrors getUnimplementedStatusResponse (server.ts lines 74-82). -/
def getUnimplementedStatusResponse (methodName : String) : UnimplementedResponse :=
  { code := Status.UNIMPLEMENTED,
    details := "The server does not implement the method " ++ methodName,
    metadata := [] }

/-- A handler function value stored in the registry: either a user
implementation (`implementation[key].bind(implementation)`, identified by the
key it was selected under) or a default handler closure produced by
getDefaultHandler, which captures the unimplemented status response. -/
inductive HandlerFunc where
  | userImpl (key : String)
  | defaultHandler (htype : HandlerType) (resp : UnimplementedResponse)
deriving DecidableEq

/-- Mirrors getDefaultHandler (server.ts lines 95-125): every shape's default
handler captures `getUnimplementedStatusResponse(methodName)`.  With the
shapes as an inductive type the `Invalid handlerType` branch is unreachable. -/
def getDefaultHandler (htype : HandlerType) (methodName : String) : HandlerFunc :=
  HandlerFunc.defaultHandler htype (getUnimplementedStatusResponse methodName)

/-- How a default handler completes a call when invoked: the unary and
client-streaming defaults invoke `callback(resp, null)`; the server-streaming
and bidi defaults emit `error` with the response. -/
inductive CallCompletion where
  | unaryCallback (err : Option UnimplementedResponse) (value : Option Nat)
  | emitError (err : UnimplementedResponse)
deriving DecidableEq

/-- The completion a default handler of the given shape performs with its
captured response (the bodies of the four cases of getDefaultHandler). -/
def invokeDefaultHandler (htype : HandlerType) (resp : UnimplementedResponse) : CallCompletion :=
  match htype with
  | .unary => .unaryCallback (some resp) none
  | .clientStream => .unaryCallback (some resp) none
  | .serverStream => .emitError resp
  | .bidi => .emitError resp

/-- The status response a completion delivers to the caller, if any. -/
def CallCompletion.statusOf : CallCompletion → Option UnimplementedResponse
  | .unaryCallback e _ => e
  | .emitError e => some e

/-- A registered handler record (the object stored by Server.register). -/
structure Handler where
  func : HandlerFunc
  serialize : Nat
  deserialize : Nat
  type : HandlerType
  path : String
deriving DecidableEq

/-- The server's `handlers` JS Map, as an association list in insertion
order (JS Map preserves insertion order). -/
abbrev HandlerMap := List (String × Handler)

/-- JS `Map.has`. -/
def mapHas (m : HandlerMap) (k : String) : Bool :=
  m.any (fun e => e.1 == k)

/-- JS `Map.get`. -/
def mapGet (m : HandlerMap) (k : String) : Option Handler :=
  (m.find? (fun e => e.1 == k)).map (fun e => e.2)

/-- JS `Map.set`: replace an existing binding in place, else append. -/
def mapSet (m : HandlerMap) (k : String) (v : Handler) : HandlerMap :=
  if mapHas m k then m.map (fun e => if e.1 == k then (k, v) else e)
  else m ++ [(k, v)]

/-- Mirrors Server.register (server.ts lines 603-622): refuse when the path
is already present, otherwise store the handler record.  Returns the updated
map and the boolean result. -/
def register (m : HandlerMap) (name : String) (handler : HandlerFunc)
    (serialize deserialize : Nat) (type : HandlerType) : HandlerMap × Bool :=
  if mapHas m name then (m, false)
  else
    (mapSet m name
      { func := handler, serialize := serialize, deserialize := deserialize,
        type := type, path := name },
      true)

/-- Mirrors Server.unregister: JS `Map.delete` returns whether the key was
present. -/
def unregister (m : HandlerMap) (name : String) : HandlerMap × Bool :=
  (m.filter (fun e => !(e.1 == name)), mapHas m name)

/-- The per-method attributes of a service definition entry
(MethodDefinition in make-client.ts, the fields server.ts reads).
Serializers are opaque tags. -/
structure MethodAttrs where
  path : String
  requestStream : Bool
  responseStream : Bool
  originalName : Option String
  requestDeserialize : Nat
  responseSerialize : Nat
deriving DecidableEq

/-- The shape derivation in Server.addService (server.ts lines 249-261). -/
def deriveMethodType (requestStream responseStream : Bool) : HandlerType :=
  if requestStream then (if responseStream then .bidi else .clientStream)
  else (if responseStream then .serverStream else .unary)

/-- The implementation object, modelled as the set of keys on which it
defines a function (`implementation[k] !== undefined`). -/
abbrev ServiceImplementation := List String

/-- The implementation-selection logic of addService (server.ts lines
263-274): `implementation[name]`, falling back to
`implementation[attrs.originalName]` when the primary key is absent and
`originalName` is a string, and finally `getDefaultHandler(methodType, name)`.
Note the default handler receives the service-definition key `name`, not
`attrs.path`. -/
def selectImpl (impl : ServiceImplementation) (name : String) (attrs : MethodAttrs)
    (methodType : HandlerType) : HandlerFunc :=
  if impl.contains name then .userImpl name
  else
    match attrs.originalName with
    | some orig =>
      if impl.contains orig then .userImpl orig
      else getDefaultHandler methodType name
    | none => getDefaultHandler methodType name

/-- The handler record addService registers for one method: register is
called with `attrs.path`, the selected implementation,
`attrs.responseSerialize`, `attrs.requestDeserialize` and the derived shape. -/
def methodHandler (impl : ServiceImplementation) (name : String) (attrs : MethodAttrs) : Handler :=
  { func := selectImpl impl name attrs (deriveMethodType attrs.requestStream attrs.responseStream),
    serialize := attrs.responseSerialize,
    deserialize := attrs.requestDeserialize,
    type := deriveMethodType attrs.requestStream attrs.responseStream,
    path := attrs.path }

/-- The forEach body of Server.addService (server.ts lines 245-288), threaded
over the service keys in order.  A `register` failure throws
`Method handler for <path> already provided.`, which aborts the iteration;
registrations already performed are kept (no rollback). -/
def addServiceGo (impl : ServiceImplementation) :
    HandlerMap → List (String × MethodAttrs) → HandlerMap × Option String
  | m, [] => (m, none)
  | m, (name, attrs) :: rest =>
    let methodType := deriveMethodType attrs.requestStream attrs.responseStream
    let implFn := selectImpl impl name attrs methodType
    match register m attrs.path implFn attrs.responseSerialize attrs.requestDeserialize methodType with
    | (m2, true) => addServiceGo impl m2 rest
    | (m2, false) => (m2, some ("Method handler for " ++ attrs.path ++ " already provided."))

/-- Server.addService on well-typed (object) arguments: reject an empty
definition, then process every method key in order. -/
def addService (m : HandlerMap) (service : List (String × MethodAttrs))
    (impl : ServiceImplementation) : HandlerMap × Option String :=
  if service.isEmpty then (m, some "Cannot add an empty service to a server")
  else addServiceGo impl m service

/-- The method's implementation is missing from the impl object under both
its primary name and (when present as a string) its originalName. -/
def implMissing (impl : ServiceImplementation) (name : String) (attrs : MethodAttrs) : Bool :=
  !(impl.contains name) &&
    (match attrs.originalName with
     | some orig => !(impl.contains orig)
     | none => true)

/-- A ChannelzCallTracker (channelz.ts): the counters the server core
increments.  Timestamps are omitted; they never feed back into control flow. -/
structure CallTracker where
  callsStarted : Nat
  callsSucceeded : Nat
  callsFailed : Nat
deriving DecidableEq

def addCallStarted (t : CallTracker) : CallTracker :=
  { t with callsStarted := t.callsStarted + 1 }

def addCallFailed (t : CallTracker) : CallTracker :=
  { t with callsFailed := t.callsFailed + 1 }

/-- The two headers the dispatch prologue reads.  `contentType` is `none`
when the header is missing or not a string. -/
structure Headers where
  contentType : Option String
  path : String
deriving DecidableEq

/-- JS `String.prototype.startsWith(pre)`: the receiver's characters begin
with those of `pre`. -/
def strStartsWith (s pre : String) : Bool :=
  pre.data.isPrefixOf s.data

/-- The content-type test of _setupHandlers (server.ts lines 706-711):
valid iff the header is a string beginning with `application/grpc`. -/
def validContentType : Option String → Bool
  | some s => strStartsWith s "application/grpc"
  | none => false

/-- A thrown error value as the catch block sees it: an optional numeric
`code` field (absent models `undefined`) and a details string. -/
structure ErrObj where
  code : Option Status
  details : String
deriving DecidableEq

/-- The code fix-up in the catch block (server.ts lines 816-818):
`if (err.code === undefined) err.code = Status.INTERNAL`. -/
def fixErrorCode (e : ErrObj) : ErrObj :=
  match e.code with
  | none => { e with code := some Status.INTERNAL }
  | some _ => e

/-- The observable outcome of the stream-event handler for one stream:
a 415 response ending the stream, a dispatch to a registered handler of the
given shape, or an error sent via `call.sendError` (degenerateCall is true
when the CallStream was constructed in the catch block, bound to no
handler). -/
inductive StreamAction where
  | respond415EndStream
  | dispatched (htype : HandlerType) (path : String)
  | sentError (degenerateCall : Bool) (err : ErrObj)
deriving DecidableEq

/-- The state after handling one stream event: the action taken, the
server's call tracker, and the session's stream tracker (when the session is
known to channelz). -/
structure StreamResult where
  action : StreamAction
  tracker : CallTracker
  sessionTracker : Option CallTracker
deriving DecidableEq

/-- The stream-event handler of Server._setupHandlers (server.ts lines
700-822).  `dispatchThrow` is the oracle for an error thrown synchronously
after the CallStream is constructed (receiveMetadata or the shape dispatch);
`none` means dispatch proceeds normally.  The path-lookup failure throws
before the CallStream exists, so the catch block constructs a degenerate one
and bumps the failure counters; a throw after construction does not bump
them there (the callEnd listener does that when the call ends). -/
def handleStream (handlers : HandlerMap) (tracker : CallTracker)
    (sessionTracker : Option CallTracker) (headers : Headers)
    (dispatchThrow : Option ErrObj) : StreamResult :=
  let t1 := addCallStarted tracker
  let s1 := sessionTracker.map addCallStarted
  if validContentType headers.contentType = false then
    { action := .respond415EndStream,
      tracker := addCallFailed t1,
      sessionTracker := s1.map addCallFailed }
  else
    match mapGet handlers headers.path with
    | none =>
      let resp := getUnimplementedStatusResponse headers.path
      { action := .sentError true (fixErrorCode { code := some resp.code, details := resp.details }),
        tracker := addCallFailed t1,
        sessionTracker := s1.map addCallFailed }
    | some handler =>
      match dispatchThrow with
      | some e =>
        { action := .sentError false (fixErrorCode e),
          tracker := t1,
          sessionTracker := s1 }
      | none =>
        { action := .dispatched handler.type headers.path,
          tracker := t1,
          sessionTracker := s1 }

/-- The aggregate a bind attempt produces (interface BindResult). -/
structure BindResult where
  port : Nat
  count : Nat
deriving DecidableEq

/-- Oracle for `http2Server.listen`: given the address passed to listen,
either the address the socket actually bound (`http2Server.address()`) or
`none` for an `error` event. -/
abbrev ListenEnv := SubchannelAddress → Option SubchannelAddress

/-- One address attempt inside bindSpecificPort (server.ts lines 380-440):
a TCP address is re-targeted at `portNum` before listening; on success the
attempt resolves the bound port (`'port' in boundSubchannelAddress ?
boundSubchannelAddress.port : portNum`), on error it resolves the error
(modelled `none`). -/
def attemptBind (env : ListenEnv) (portNum : Nat) (address : SubchannelAddress) : Option Nat :=
  let addr :=
    match address with
    | .tcp host _ => SubchannelAddress.tcp host portNum
    | .unix p => SubchannelAddress.unix p
  match env addr with
  | none => none
  | some bound =>
    some
      (match bound with
       | .tcp _ p => p
       | .unix _ => portNum)

def invalidStateMsg : String :=
  "Invalid state: multiple port numbers added from single address"

/-- The result-aggregation loop of bindSpecificPort (server.ts lines
442-453): count the numeric results, throwing (promise rejection) when a
bound port differs from `portNum`. -/
def countBindResults (portNum : Nat) : List (Option Nat) → Except String Nat
  | [] => .ok 0
  | none :: rest => countBindResults portNum rest
  | some p :: rest =>
    if p = portNum then (countBindResults portNum rest).map (fun c => c + 1)
    else .error invalidStateMsg

/-- Mirrors bindSpecificPort (server.ts lines 371-459). -/
def bindSpecificPort (env : ListenEnv) (addressList : List SubchannelAddress)
    (portNum previousCount : Nat) : Except String BindResult :=
  if addressList.isEmpty then .ok { port := portNum, count := previousCount }
  else
    (countBindResults portNum (addressList.map (attemptBind env portNum))).map
      (fun count => { port := portNum, count := count + previousCount })

/-- Mirrors bindWildcardPort (server.ts lines 461-516): listen on the first
address as given (its port is 0, so the OS selects one); on error retry the
tail as the wildcard; on success bind the tail to the now-known bound port
with a previous count of 1. -/
def bindWildcardPort (env : ListenEnv) : List SubchannelAddress → Except String BindResult
  | [] => .ok { port := 0, count := 0 }
  | address :: rest =>
    match env address with
    | none => bindWildcardPort env rest
    | some bound => bindSpecificPort env rest (subchannelPort bound) 1

/-- Whether a user-callback invocation is performed synchronously or on the
next tick of the event loop. -/
inductive Tick where
  | sync
  | next
deriving DecidableEq

/-- One invocation of the bindAsync user callback: when it runs, the error
argument (its message) and the port argument. -/
structure CallbackInvocation where
  tick : Tick
  error : Option String
  port : Nat
deriving DecidableEq

/-- Mirrors deferredCallback (server.ts lines 350-352): wrap the invocation
in `process.nextTick`. -/
def deferredCallback (error : Option String) (port : Nat) : CallbackInvocation :=
  { tick := Tick.next, error := error, port := port }

def noAddressMsg (n : Nat) : String :=
  "No address added out of total " ++ toString n ++ " resolved"

def warningOnlyMsg (count n : Nat) : String :=
  "WARNING Only " ++ toString count ++ " addresses added out of total " ++ toString n ++ " resolved"

/-- The classification of a non-empty resolved address list by its first
element (server.ts lines 530-544). -/
def resolutionBindPromise (env : ListenEnv) (addressList : List SubchannelAddress) :
    Except String BindResult :=
  match addressList with
  | [] => .ok { port := 0, count := 0 }
  | first :: _ =>
    if isTcpSubchannelAddress first then
      if subchannelPort first = 0 then bindWildcardPort env addressList
      else bindSpecificPort env addressList (subchannelPort first) 0
    else bindSpecificPort env addressList 1 0

/-- The reply policy applied to the settled bind promise (server.ts lines
545-566): logs emitted and the single deferred callback invocation. -/
def bindReply (n : Nat) (r : Except String BindResult) :
    List (LogVerbosity × String) × CallbackInvocation :=
  match r with
  | .error _ =>
    ([(LogVerbosity.ERROR, noAddressMsg n)], deferredCallback (some (noAddressMsg n)) 0)
  | .ok br =>
    if br.count = 0 then
      ([(LogVerbosity.ERROR, noAddressMsg n)], deferredCallback (some (noAddressMsg n)) 0)
    else if br.count < n then
      ([(LogVerbosity.INFO, warningOnlyMsg br.count n)], deferredCallback none br.port)
    else ([], deferredCallback none br.port)

/-- Mirrors resolverListener.onSuccessfulResolution (server.ts lines
519-567) for the first (and only effective) resolution result: an empty
address list reports `No addresses resolved for port <port>` with port 0,
otherwise the classified bind promise is settled through the reply policy. -/
def onSuccessfulResolution (env : ListenEnv) (port : String)
    (addressList : List SubchannelAddress) :
    List (LogVerbosity × String) × CallbackInvocation :=
  if addressList.isEmpty then
    ([], deferredCallback (some ("No addresses resolved for port " ++ port)) 0)
  else bindReply addressList.length (resolutionBindPromise env addressList)

/-- Mirrors resolverListener.onError (server.ts lines 568-570). -/
def onResolutionError (details : String) : CallbackInvocation :=
  deferredCallback (some details) 0

/-- A dynamically-typed JS argument value, as far as the bindAsync
validation discriminates them. -/
inductive JsVal where
  | str (s : String)
  | num (n : Int)
  | fn
  | nullVal
  | obj
  | undef
deriving DecidableEq

def JsVal.isString : JsVal → Bool
  | .str _ => true
  | _ => false

def JsVal.isFunction : JsVal → Bool
  | .fn => true
  | _ => false

def JsVal.asString : JsVal → String
  | .str s => s
  | _ => ""

/-- The creds argument: null, a ServerCredentials instance, or any other
value. -/
inductive CredsArg where
  | nullVal
  | serverCredentials
  | otherValue
deriving DecidableEq

/-- The test `creds === null || !(creds instanceof ServerCredentials)`. -/
def credsInvalid : CredsArg → Bool
  | .nullVal => true
  | .serverCredentials => false
  | .otherValue => true

/-- An exception thrown synchronously by bindAsync: a plain Error or a
TypeError, with its message. -/
inductive BindSyncError where
  | plainError (msg : String)
  | typeError (msg : String)
deriving DecidableEq

/-- The synchronous phase of Server.bindAsync (server.ts lines 306-334):
the started guard, the three argument type checks, and the two URI checks
(parseUri and mapUriDefaultScheme are external, modelled as oracles on the
port string).  `.ok ()` is the unique branch that goes on to create the
resolver (and hence listeners); every user-callback invocation after that
point is constructed by `deferredCallback`. -/
def bindAsyncSync (started : Bool) (port : JsVal) (creds : CredsArg) (callback : JsVal)
    (parseOk : String → Bool) (schemeOk : String → Bool) : Except BindSyncError Unit :=
  if started then .error (.plainError "server is already started")
  else if !port.isString then .error (.typeError "port must be a string")
  else if credsInvalid creds then .error (.typeError "creds must be a ServerCredentials object")
  else if !callback.isFunction then .error (.typeError "callback must be a function")
  else if !(parseOk port.asString) then
    .error (.plainError ("Could not parse port \"" ++ port.asString ++ "\""))
  else if !(schemeOk port.asString) then
    .error (.plainError ("Could not get a default scheme for port \"" ++ port.asString ++ "\""))
  else .ok ()

/-- The server state the shutdown operations act on, with the channelz
registry's view of the server ref and observable event counters.
`serverRefUnregistrations` counts effective removals of the server's ref
from the registry; `shutdownCallbacksInvoked` counts tryShutdown user
callbacks that have fired. -/
structure ShutdownState where
  started : Bool
  listenersListening : Nat
  openSessions : Nat
  serverRefRegistered : Bool
  serverRefUnregistrations : Nat
  shutdownCallbacksInvoked : Nat
deriving DecidableEq

/-- Modelled from the spec: `unregisterChannelzRef` lives in channelz.ts,
which is not under src/.  The spec describes channelz as a process-wide
registry assigning ids to refs, with `unregister(ref)` in its telemetry
contract; removal from a registry map is effective only when the entry is
present, and removing an absent entry leaves the registry unchanged. -/
def unregisterServerRef (s : ShutdownState) : ShutdownState :=
  if s.serverRefRegistered then
    { s with serverRefRegistered := false,
             serverRefUnregistrations := s.serverRefUnregistrations + 1 }
  else s

/-- Server.tryShutdown (server.ts lines 645-683), run to completion: clear
`started`, close every listening socket, gracefully close every open
session, and when the pending checks reach zero run `wrappedCallback`,
which unregisters the server's channelz ref and invokes the user callback.
Each tryShutdown call fires its wrappedCallback exactly once. -/
def tryShutdownComplete (s : ShutdownState) : ShutdownState :=
  let s1 := { s with started := false, listenersListening := 0, openSessions := 0 }
  let s2 := unregisterServerRef s1
  { s2 with shutdownCallbacksInvoked := s2.shutdownCallbacksInvoked + 1 }

/-- Server.forceShutdown (server.ts lines 577-601): close listening
sockets, clear `started`, destroy and clear all sessions, and unregister
the server's channelz ref.  No user callback exists. -/
def forceShutdownRun (s : ShutdownState) : ShutdownState :=
  let s1 := { s with started := false, listenersListening := 0, openSessions := 0 }
  unregisterServerRef s1

/-- A shutdown operation invoked on the server. -/
inductive ShutdownOp where
  | tryShutdownOp
  | forceShutdownOp
deriving DecidableEq

def shutdownStep (s : ShutdownState) : ShutdownOp → ShutdownState
  | .tryShutdownOp => tryShutdownComplete s
  | .forceShutdownOp => forceShutdownRun s

/-- Run a sequence of shutdown operations on one server. -/
def runShutdownOps (s : ShutdownState) (ops : List ShutdownOp) : ShutdownState :=
  ops.foldl shutdownStep s

/-- The method attributes of the spec's example `Echo` method. -/
def echoAttrs : MethodAttrs :=
  { path := "/demo.S/Echo", requestStream := false, responseStream := false,
    originalName := none, requestDeserialize := 0, responseSerialize := 0 }

/-- A listen environment in which every bind attempt fails. -/
def envAllFail : ListenEnv := fun _ => none

/-- A listen environment in which every TCP bind succeeds and the OS
assigns port 54321. -/
def envOsAssign : ListenEnv :=
  fun a =>
    match a with
    | .tcp h _ => some (SubchannelAddress.tcp h 54321)
    | .unix _ => none

/-- A URI oracle that always succeeds. -/
def alwaysTrue : String → Bool := fun _ => true

/-- Concrete method attributes for a method at path /S/A. -/
def attrsSA : MethodAttrs :=
  { path := "/S/A", requestStream := false, responseStream := false,
    originalName := none, requestDeserialize := 0, responseSerialize := 0 }

/-- Concrete method attributes for a method at path /S/B. -/
def attrsSB : MethodAttrs :=
  { path := "/S/B", requestStream := false, responseStream := false,
    originalName := none, requestDeserialize := 0, responseSerialize := 0 }

/-- A concrete handler record occupying path /S/B. -/
def handlerSB : Handler :=
  { func := HandlerFunc.userImpl "B", serialize := 0, deserialize := 0,
    type := HandlerType.unary, path := "/S/B" }

/-- A concrete handler record occupying path /p. -/
def handlerP : Handler :=
  { func := HandlerFunc.userImpl "p", serialize := 0, deserialize := 0,
    type := HandlerType.unary, path := "/p" }

/-! Helper lemmas about the handler map and `register`. -/

theorem mapHas_append_single (m : HandlerMap) (k : String) (v : Handler) :
    mapHas (m ++ [(k, v)]) k = true := by
  simp [mapHas, List.any_append]

theorem find?_eq_none_of_not_has {m : HandlerMap} {k : String} (h : mapHas m k = false) :
    m.find? (fun e => e.1 == k) = none := by
  rw [List.find?_eq_none]
  intro x hx hpx
  have hmem : m.any (fun e => e.1 == k) = true := List.any_eq_true.mpr ⟨x, hx, hpx⟩
  rw [mapHas] at h
  rw [h] at hmem
  exact Bool.false_ne_true hmem

theorem mapGet_append_single_self {m : HandlerMap} {k : String} (v : Handler)
    (h : mapHas m k = false) : mapGet (m ++ [(k, v)]) k = some v := by
  unfold mapGet
  rw [List.find?_append, find?_eq_none_of_not_has h]
  simp

theorem mapGet_append_single_preserve {m : HandlerMap} {k k2 : String} {v : Handler}
    (v2 : Handler) (h : mapGet m k = some v) :
    mapGet (m ++ [(k2, v2)]) k = some v := by
  unfold mapGet at h ⊢
  rw [List.find?_append]
  cases hf : m.find? (fun e => e.1 == k) with
  | none => rw [hf] at h; exact absurd h (by simp)
  | some e =>
    rw [hf] at h
    simpa using h

theorem register_of_has {m : HandlerMap} {name : String} {f : HandlerFunc} {s d : Nat}
    {t : HandlerType} (h : mapHas m name = true) :
    register m name f s d t = (m, false) := by
  simp [register, h]

theorem register_of_not_has {m : HandlerMap} {name : String} {f : HandlerFunc} {s d : Nat}
    {t : HandlerType} (h : mapHas m name = false) :
    register m name f s d t =
      (m ++ [(name, { func := f, serialize := s, deserialize := d, type := t, path := name })],
       true) := by
  simp [register, mapSet, h]

theorem register_has_mono {m : HandlerMap} {k : String} (name : String) (f : HandlerFunc)
    (s d : Nat) (t : HandlerType) (h : mapHas m k = true) :
    mapHas (register m name f s d t).1 k = true := by
  cases hn : mapHas m name with
  | true => rw [register_of_has hn]; exact h
  | false =>
    rw [register_of_not_has hn]
    unfold mapHas at h ⊢
    rw [List.any_append, h, Bool.true_or]

theorem register_get_preserve {m : HandlerMap} {k : String} {v : Handler} (name : String)
    (f : HandlerFunc) (s d : Nat) (t : HandlerType) (h : mapGet m k = some v) :
    mapGet (register m name f s d t).1 k = some v := by
  cases hn : mapHas m name with
  | true => rw [register_of_has hn]; exact h
  | false => rw [register_of_not_has hn]; exact mapGet_append_single_preserve _ h

/-! Helper lemmas about `addServiceGo`. -/

theorem addServiceGo_cons_fail {impl : ServiceImplementation} {m : HandlerMap}
    {name : String} {attrs : MethodAttrs} {rest : List (String × MethodAttrs)}
    (hn : mapHas m attrs.path = true) :
    addServiceGo impl m ((name, attrs) :: rest) =
      (m, some ("Method handler for " ++ attrs.path ++ " already provided.")) := by
  simp only [addServiceGo]
  rw [register_of_has hn]

theorem addServiceGo_cons_ok {impl : ServiceImplementation} {m : HandlerMap}
    {name : String} {attrs : MethodAttrs} {rest : List (String × MethodAttrs)}
    (hn : mapHas m attrs.path = false) :
    addServiceGo impl m ((name, attrs) :: rest) =
      addServiceGo impl (m ++ [(attrs.path, methodHandler impl name attrs)]) rest := by
  simp only [addServiceGo]
  rw [register_of_not_has hn]
  rfl

theorem addServiceGo_has_mono (impl : ServiceImplementation) :
    ∀ (l : List (String × MethodAttrs)) (m : HandlerMap) (k : String),
      mapHas m k = true → mapHas (addServiceGo impl m l).1 k = true := by
  intro l
  induction l with
  | nil => intro m k h; exact h
  | cons e rest ih =>
    intro m k h
    obtain ⟨name, attrs⟩ := e
    cases hn : mapHas m attrs.path with
    | true => rw [addServiceGo_cons_fail hn]; exact h
    | false =>
      rw [addServiceGo_cons_ok hn]
      apply ih
      unfold mapHas at h ⊢
      rw [List.any_append, h, Bool.true_or]

theorem addServiceGo_get_preserve (impl : ServiceImplementation) :
    ∀ (l : List (String × MethodAttrs)) (m : HandlerMap) (k : String) (v : Handler),
      mapGet m k = some v → mapGet (addServiceGo impl m l).1 k = some v := by
  intro l
  induction l with
  | nil => intro m k v h; exact h
  | cons e rest ih =>
    intro m k v h
    obtain ⟨name, attrs⟩ := e
    cases hn : mapHas m attrs.path with
    | true => rw [addServiceGo_cons_fail hn]; exact h
    | false =>
      rw [addServiceGo_cons_ok hn]
      exact ih _ _ _ (mapGet_append_single_preserve _ h)

theorem addServiceGo_append_of_ok (impl : ServiceImplementation) :
    ∀ (l₁ : List (String × MethodAttrs)) (m m₁ : HandlerMap)
      (l₂ : List (String × MethodAttrs)),
      addServiceGo impl m l₁ = (m₁, none) →
      addServiceGo impl m (l₁ ++ l₂) = addServiceGo impl m₁ l₂ := by
  intro l₁
  induction l₁ with
  | nil =>
    intro m m₁ l₂ h
    have hm : m = m₁ := congrArg Prod.fst h
    rw [List.nil_append, hm]
  | cons e rest ih =>
    intro m m₁ l₂ h
    obtain ⟨name, attrs⟩ := e
    cases hn : mapHas m attrs.path with
    | true =>
      rw [addServiceGo_cons_fail hn] at h
      exact absurd (congrArg Prod.snd h) (by simp)
    | false =>
      rw [addServiceGo_cons_ok hn] at h
      rw [List.cons_append, addServiceGo_cons_ok hn]
      exact ih _ _ _ h

theorem addServiceGo_ok_registers_all (impl : ServiceImplementation) :
    ∀ (l : List (String × MethodAttrs)) (m m' : HandlerMap),
      addServiceGo impl m l = (m', none) →
      ∀ x ∈ l, mapHas m' x.2.path = true := by
  intro l
  induction l with
  | nil => intro m m' _ x hx; exact absurd hx (List.not_mem_nil x)
  | cons e rest ih =>
    intro m m' h x hx
    obtain ⟨name, attrs⟩ := e
    cases hn : mapHas m attrs.path with
    | true =>
      rw [addServiceGo_cons_fail hn] at h
      exact absurd (congrArg Prod.snd h) (by simp)
    | false =>
      rw [addServiceGo_cons_ok hn] at h
      rcases List.mem_cons.mp hx with hx1 | hx2
      · subst hx1
        have hstep : mapHas (m ++ [(attrs.path, methodHandler impl name attrs)]) attrs.path = true :=
          mapHas_append_single m _ _
        have := addServiceGo_has_mono impl rest _ attrs.path hstep
        rw [h] at this
        exact this
      · exact ih _ _ h x hx2

theorem selectImpl_of_missing {impl : ServiceImplementation} {name : String}
    {attrs : MethodAttrs} (mt : HandlerType) (h : implMissing impl name attrs = true) :
    selectImpl impl name attrs mt = getDefaultHandler mt name := by
  unfold implMissing at h
  rw [Bool.and_eq_true] at h
  obtain ⟨h1, h2⟩ := h
  rw [Bool.not_eq_true'] at h1
  have h1m : ¬ name ∈ impl := by simpa using h1
  cases ho : attrs.originalName with
  | none => simp [selectImpl, ho, h1m]
  | some orig =>
    rw [ho] at h2
    rw [Bool.not_eq_true'] at h2
    have h2m : ¬ orig ∈ impl := by simpa using h2
    simp [selectImpl, ho, h1m, h2m]

theorem invokeDefaultHandler_statusOf (ht : HandlerType) (r : UnimplementedResponse) :
    (invokeDefaultHandler ht r).statusOf = some r := by
  cases ht <;> rfl

/-! Helper lemmas about the bind reply and shutdown weight. -/

theorem bindReply_tick (n : Nat) (r : Except String BindResult) :
    (bindReply n r).2.tick = Tick.next := by
  cases r with
  | error e => rfl
  | ok br =>
    simp only [bindReply]
    by_cases h0 : br.count = 0
    · simp [h0, deferredCallback]
    · by_cases hlt : br.count < n
      · simp [h0, hlt, deferredCallback]
      · simp [h0, hlt, deferredCallback]

theorem shutdownStep_weight (s : ShutdownState) (op : ShutdownOp) :
    (shutdownStep s op).serverRefUnregistrations
        + (if (shutdownStep s op).serverRefRegistered then 1 else 0)
      = s.serverRefUnregistrations + (if s.serverRefRegistered then 1 else 0) := by
  cases op <;> cases hr : s.serverRefRegistered <;>
    simp [shutdownStep, tryShutdownComplete, forceShutdownRun, unregisterServerRef, hr]

theorem runShutdownOps_weight (ops : List ShutdownOp) :
    ∀ s : ShutdownState,
      (runShutdownOps s ops).serverRefUnregistrations
          + (if (runShutdownOps s ops).serverRefRegistered then 1 else 0)
        = s.serverRefUnregistrations + (if s.serverRefRegistered then 1 else 0) := by
  induction ops with
  | nil => intro s; rfl
  | cons op rest ih =>
    intro s
    have hstep := shutdownStep_weight s op
    have htail := ih (shutdownStep s op)
    calc (runShutdownOps s (op :: rest)).serverRefUnregistrations
        + (if (runShutdownOps s (op :: rest)).serverRefRegistered then 1 else 0)
        = (runShutdownOps (shutdownStep s op) rest).serverRefUnregistrations
            + (if (runShutdownOps (shutdownStep s op) rest).serverRefRegistered then 1 else 0) := rfl
      _ = (shutdownStep s op).serverRefUnregistrations
            + (if (shutdownStep s op).serverRefRegistered then 1 else 0) := htail
      _ = s.serverRefUnregistrations + (if s.serverRefRegistered then 1 else 0) := hstep

theorem addServiceGo_get_of_mem (impl : ServiceImplementation) :
    ∀ (l : List (String × MethodAttrs)) (m m' : HandlerMap),
      addServiceGo impl m l = (m', none) →
      ∀ (name : String) (attrs : MethodAttrs), (name, attrs) ∈ l →
        mapGet m' attrs.path = some (methodHandler impl name attrs) := by
  intro l
  induction l with
  | nil => intro m m' _ name attrs hmem; exact absurd hmem (List.not_mem_nil _)
  | cons e rest ih =>
    intro m m' h name attrs hmem
    obtain ⟨n, a⟩ := e
    cases hn : mapHas m a.path with
    | true =>
      rw [addServiceGo_cons_fail hn] at h
      exact absurd (congrArg Prod.snd h) (by simp)
    | false =>
      rw [addServiceGo_cons_ok hn] at h
      rcases List.mem_cons.mp hmem with hx1 | hx2
      · obtain ⟨hname, hattrs⟩ := Prod.mk.injEq .. ▸ hx1
        subst hname
        subst hattrs
        have hget : mapGet (m ++ [(attrs.path, methodHandler impl name attrs)]) attrs.path
            = some (methodHandler impl name attrs) :=
          mapGet_append_single_self _ hn
        have hpres := addServiceGo_get_preserve impl rest _ _ _ hget
        rw [h] at hpres
        exact hpres
      · exact ih _ _ h name attrs hx2

/-- C6: `register(p, …)` returns false exactly when `p` is already present in
the handler map; when it returns false the map is unchanged (no overwrite
takes place); and after any `register(p, …)` call a second `register(p, …)`
returns false. -/
theorem register_no_overwrite :
    ∀ (m : HandlerMap) (n : String) (f f2 : HandlerFunc) (s s2 d d2 : Nat)
      (t t2 : HandlerType),
      ((register m n f s d t).2 = false ↔ mapHas m n = true) ∧
      (mapHas m n = true → (register m n f s d t).1 = m) ∧
      (register (register m n f s d t).1 n f2 s2 d2 t2).2 = false := by
  intro m n f f2 s s2 d d2 t t2
  refine ⟨?_, ?_, ?_⟩
  · cases hn : mapHas m n with
    | true => rw [register_of_has hn]; simp
    | false => rw [register_of_not_has hn]; simp
  · intro hn
    rw [register_of_has hn]
  · have hh : mapHas (register m n f s d t).1 n = true := by
      cases hn : mapHas m n with
      | true => rw [register_of_has hn]; exact hn
      | false => rw [register_of_not_has hn]; exact mapHas_append_single m n _
    rw [register_of_has hh]

/-- C6 witness: registering an occupied path leaves the concrete map
unchanged. -/
theorem register_no_overwrite_witness :
    (register [("/p", handlerP)] "/p" (HandlerFunc.userImpl "u") 0 0 HandlerType.unary).1
      = [("/p", handlerP)] :=
  (register_no_overwrite [("/p", handlerP)] "/p" (HandlerFunc.userImpl "u")
      (HandlerFunc.userImpl "u") 0 0 0 0 HandlerType.unary HandlerType.unary).2.1 (by decide)

/-- C1: across any sequence of tryShutdown/forceShutdown calls on one server
whose channelz server ref is registered and not yet unregistered, the ref is
effectively unregistered at most once; in particular two consecutive
tryShutdown calls invoke both user callbacks while unregistering the ref
exactly once. -/
theorem shutdown_unregisters_ref_at_most_once :
    ∀ (s : ShutdownState) (ops : List ShutdownOp),
      s.serverRefRegistered = true →
      s.serverRefUnregistrations = 0 →
      (runShutdownOps s ops).serverRefUnregistrations ≤ 1 ∧
      (runShutdownOps s [ShutdownOp.tryShutdownOp, ShutdownOp.tryShutdownOp]).shutdownCallbacksInvoked
          = s.shutdownCallbacksInvoked + 2 ∧
      (runShutdownOps s [ShutdownOp.tryShutdownOp, ShutdownOp.tryShutdownOp]).serverRefUnregistrations
          = 1 := by
  intro s ops hreg hz
  refine ⟨?_, ?_, ?_⟩
  · have hw := runShutdownOps_weight ops s
    rw [hreg, hz] at hw
    cases hb : (runShutdownOps s ops).serverRefRegistered with
    | true => rw [hb] at hw; simp at hw; omega
    | false => rw [hb] at hw; simp at hw; omega
  · simp [runShutdownOps, shutdownStep, tryShutdownComplete, unregisterServerRef, hreg, hz]
  · simp [runShutdownOps, shutdownStep, tryShutdownComplete, unregisterServerRef, hreg, hz]

/-- C1 witness: a concrete registered server run through a forceShutdown
followed by a tryShutdown, and through two tryShutdowns. -/
theorem shutdown_unregisters_ref_at_most_once_witness :
    (runShutdownOps
        { started := true, listenersListening := 1, openSessions := 1,
          serverRefRegistered := true, serverRefUnregistrations := 0,
          shutdownCallbacksInvoked := 0 }
        [ShutdownOp.forceShutdownOp, ShutdownOp.tryShutdownOp]).serverRefUnregistrations ≤ 1 ∧
    (runShutdownOps
        { started := true, listenersListening := 1, openSessions := 1,
          serverRefRegistered := true, serverRefUnregistrations := 0,
          shutdownCallbacksInvoked := 0 }
        [ShutdownOp.tryShutdownOp, ShutdownOp.tryShutdownOp]).shutdownCallbacksInvoked = 0 + 2 ∧
    (runShutdownOps
        { started := true, listenersListening := 1, openSessions := 1,
          serverRefRegistered := true, serverRefUnregistrations := 0,
          shutdownCallbacksInvoked := 0 }
        [ShutdownOp.tryShutdownOp, ShutdownOp.tryShutdownOp]).serverRefUnregistrations = 1 :=
  shutdown_unregisters_ref_at_most_once
    { started := true, listenersListening := 1, openSessions := 1,
      serverRefRegistered := true, serverRefUnregistrations := 0,
      shutdownCallbacksInvoked := 0 }
    [ShutdownOp.forceShutdownOp, ShutdownOp.tryShutdownOp] rfl rfl

/-- C2 counterexample: for the spec's `Echo` method with path `/demo.S/Echo`
and an empty implementation object, addService installs a default handler
whose details string uses the service-definition key `Echo`, which differs
from the string built from the method's registered path attribute that the
claim requires. -/
theorem addService_default_details_use_name_not_path :
    (addService [] [("Echo", echoAttrs)] []).2 = none ∧
    mapGet (addService [] [("Echo", echoAttrs)] []).1 "/demo.S/Echo"
      = some (methodHandler [] "Echo" echoAttrs) ∧
    (methodHandler [] "Echo" echoAttrs).func
      = HandlerFunc.defaultHandler HandlerType.unary
          { code := Status.UNIMPLEMENTED,
            details := "The server does not implement the method Echo",
            metadata := [] } ∧
    "The server does not implement the method Echo"
      ≠ "The server does not implement the method /demo.S/Echo" := by
  refine ⟨rfl, rfl, rfl, ?_⟩
  decide

/-- C2 (amended): for every service-definition method whose implementation
is missing under both its primary name and its originalName, a successful
addService installs at the method's path attribute a default handler that
completes any call with status UNIMPLEMENTED and details exactly
`The server does not implement the method <name>`, where `<name>` is the
method's key in the service definition (not its path attribute). -/
theorem addService_missing_impl_installs_default_handler :
    ∀ (impl : ServiceImplementation) (m m' : HandlerMap)
      (l : List (String × MethodAttrs)),
      addServiceGo impl m l = (m', none) →
      ∀ (name : String) (attrs : MethodAttrs),
        (name, attrs) ∈ l →
        implMissing impl name attrs = true →
        mapGet m' attrs.path = some (methodHandler impl name attrs) ∧
        (methodHandler impl name attrs).func
          = HandlerFunc.defaultHandler
              (deriveMethodType attrs.requestStream attrs.responseStream)
              (getUnimplementedStatusResponse name) ∧
        (invokeDefaultHandler (deriveMethodType attrs.requestStream attrs.responseStream)
            (getUnimplementedStatusResponse name)).statusOf
          = some (getUnimplementedStatusResponse name) ∧
        (getUnimplementedStatusResponse name).code = Status.UNIMPLEMENTED ∧
        (getUnimplementedStatusResponse name).details
          = "The server does not implement the method " ++ name := by
  intro impl m m' l h name attrs hmem hmiss
  refine ⟨addServiceGo_get_of_mem impl l m m' h name attrs hmem, ?_,
    invokeDefaultHandler_statusOf _ _, rfl, rfl⟩
  exact selectImpl_of_missing _ hmiss

/-- C2 witness: the amended statement applied to the concrete `Echo` method
with an empty implementation object. -/
theorem addService_missing_impl_installs_default_handler_witness :
    mapGet [("/demo.S/Echo", methodHandler [] "Echo" echoAttrs)] "/demo.S/Echo"
      = some (methodHandler [] "Echo" echoAttrs) ∧
    (methodHandler [] "Echo" echoAttrs).func
      = HandlerFunc.defaultHandler HandlerType.unary (getUnimplementedStatusResponse "Echo") ∧
    (invokeDefaultHandler HandlerType.unary (getUnimplementedStatusResponse "Echo")).statusOf
      = some (getUnimplementedStatusResponse "Echo") ∧
    (getUnimplementedStatusResponse "Echo").code = Status.UNIMPLEMENTED ∧
    (getUnimplementedStatusResponse "Echo").details
      = "The server does not implement the method " ++ "Echo" :=
  addService_missing_impl_installs_default_handler [] []
    [("/demo.S/Echo", methodHandler [] "Echo" echoAttrs)] [("Echo", echoAttrs)] rfl
    "Echo" echoAttrs (by simp) rfl

/-- C9: addService is not atomic: when the prefix `l₁` of a service
definition registers successfully and the next method's path is already
occupied, the whole call fails with the error naming that path while every
method of the prefix remains registered in the resulting map. -/
theorem addService_partial_registration_no_rollback :
    ∀ (impl : ServiceImplementation) (m m₁ : HandlerMap)
      (l₁ : List (String × MethodAttrs)) (nm : String) (attrs : MethodAttrs)
      (rest : List (String × MethodAttrs)),
      addServiceGo impl m l₁ = (m₁, none) →
      mapHas m₁ attrs.path = true →
      addServiceGo impl m (l₁ ++ (nm, attrs) :: rest)
          = (m₁, some ("Method handler for " ++ attrs.path ++ " already provided.")) ∧
      ∀ x ∈ l₁, mapHas m₁ x.2.path = true := by
  intro impl m m₁ l₁ nm attrs rest h hdup
  constructor
  · rw [addServiceGo_append_of_ok impl l₁ m m₁ _ h]
    exact addServiceGo_cons_fail hdup
  · exact addServiceGo_ok_registers_all impl l₁ m m₁ h

/-- C9 witness: with `/S/B` pre-registered, adding a definition containing
`/S/A` then `/S/B` fails naming `/S/B`, and `/S/A` stays registered. -/
theorem addService_partial_registration_no_rollback_witness :
    addServiceGo [] [("/S/B", handlerSB)] ([("A", attrsSA)] ++ ("B", attrsSB) :: [])
      = ([("/S/B", handlerSB), ("/S/A", methodHandler [] "A" attrsSA)],
         some ("Method handler for " ++ "/S/B" ++ " already provided.")) :=
  (addService_partial_registration_no_rollback [] [("/S/B", handlerSB)]
      [("/S/B", handlerSB), ("/S/A", methodHandler [] "A" attrsSA)]
      [("A", attrsSA)] "B" attrsSB [] rfl (by decide)).1

/-- C3: bindWildcardPort listens on the first address as resolved (port 0,
so the OS selects a port); on success it binds every remaining address to
the now-known bound port with a previous count of 1; on failure it retries
the tail as the wildcard, recursively; and when every wildcard attempt
fails the aggregate is port 0 with count 0. -/
theorem bindWildcardPort_policy :
    (∀ env : ListenEnv, bindWildcardPort env [] = Except.ok { port := 0, count := 0 }) ∧
    (∀ (env : ListenEnv) (a : SubchannelAddress) (rest : List SubchannelAddress)
       (bound : SubchannelAddress), env a = some bound →
       bindWildcardPort env (a :: rest) = bindSpecificPort env rest (subchannelPort bound) 1) ∧
    (∀ (env : ListenEnv) (a : SubchannelAddress) (rest : List SubchannelAddress),
       env a = none →
       bindWildcardPort env (a :: rest) = bindWildcardPort env rest) ∧
    (∀ (env : ListenEnv) (l : List SubchannelAddress),
       (∀ a ∈ l, env a = none) →
       bindWildcardPort env l = Except.ok { port := 0, count := 0 }) := by
  refine ⟨fun env => rfl, ?_, ?_, ?_⟩
  · intro env a rest bound h
    simp only [bindWildcardPort]
    rw [h]
  · intro env a rest h
    simp only [bindWildcardPort]
    rw [h]
  · intro env l h
    induction l with
    | nil => rfl
    | cons a rest ih =>
      have ha : env a = none := h a (List.mem_cons_self a rest)
      simp only [bindWildcardPort]
      rw [ha]
      exact ih (fun x hx => h x (List.mem_cons_of_mem a hx))

/-- C3 witness: with the OS assigning port 54321 to the first wildcard
bind, the remaining address is bound through bindSpecificPort at 54321 with
previous count 1. -/
theorem bindWildcardPort_policy_witness :
    bindWildcardPort envOsAssign
        (SubchannelAddress.tcp "0.0.0.0" 0 :: [SubchannelAddress.tcp "::" 0])
      = bindSpecificPort envOsAssign [SubchannelAddress.tcp "::" 0] 54321 1 :=
  bindWildcardPort_policy.2.1 envOsAssign (SubchannelAddress.tcp "0.0.0.0" 0)
    [SubchannelAddress.tcp "::" 0] (SubchannelAddress.tcp "0.0.0.0" 54321) rfl

/-- C4: the reply policy over the aggregate bind result for N resolved
addresses: an empty resolved list reports `No addresses resolved for port
<port>` with port 0; count 0 reports `No address added out of total N
resolved` with port 0 after an error log; 0 < count < N succeeds with the
bound port plus an informational log; count = N succeeds with the port and
no log. -/
theorem bindAsync_reply_policy :
    (∀ (env : ListenEnv) (port : String),
       onSuccessfulResolution env port []
         = ([], deferredCallback (some ("No addresses resolved for port " ++ port)) 0)) ∧
    (∀ (env : ListenEnv) (port : String) (l : List SubchannelAddress) (br : BindResult),
       l ≠ [] → resolutionBindPromise env l = Except.ok br → br.count = 0 →
       onSuccessfulResolution env port l
         = ([(LogVerbosity.ERROR, noAddressMsg l.length)],
            deferredCallback (some (noAddressMsg l.length)) 0)) ∧
    (∀ (env : ListenEnv) (port : String) (l : List SubchannelAddress) (br : BindResult),
       l ≠ [] → resolutionBindPromise env l = Except.ok br →
       0 < br.count → br.count < l.length →
       onSuccessfulResolution env port l
         = ([(LogVerbosity.INFO, warningOnlyMsg br.count l.length)],
            deferredCallback none br.port)) ∧
    (∀ (env : ListenEnv) (port : String) (l : List SubchannelAddress) (br : BindResult),
       l ≠ [] → resolutionBindPromise env l = Except.ok br → br.count = l.length →
       onSuccessfulResolution env port l = ([], deferredCallback none br.port)) := by
  refine ⟨fun env port => rfl, ?_, ?_, ?_⟩
  · intro env port l br hne hok h0
    have hie : l.isEmpty = false := by
      cases l with
      | nil => exact absurd rfl hne
      | cons a rest => rfl
    simp [onSuccessfulResolution, hie, hok, bindReply, h0]
  · intro env port l br hne hok hpos hlt
    have hie : l.isEmpty = false := by
      cases l with
      | nil => exact absurd rfl hne
      | cons a rest => rfl
    have hne0 : br.count ≠ 0 := Nat.pos_iff_ne_zero.mp hpos
    simp [onSuccessfulResolution, hie, hok, bindReply, hne0, hlt]
  · intro env port l br hne hok hfull
    have hie : l.isEmpty = false := by
      cases l with
      | nil => exact absurd rfl hne
      | cons a rest => rfl
    have hlen : 0 < l.length := List.length_pos.mpr hne
    have hne0 : br.count ≠ 0 := by omega
    have hnlt : ¬ br.count < l.length := by omega
    simp [onSuccessfulResolution, hie, hok, bindReply, hne0, hnlt]

/-- C4 witness: one resolved TCP address whose bind fails gives count 0 and
the `No address added out of total 1 resolved` error with port 0. -/
theorem bindAsync_reply_policy_witness :
    onSuccessfulResolution envAllFail "80" [SubchannelAddress.tcp "127.0.0.1" 80]
      = ([(LogVerbosity.ERROR, noAddressMsg 1)],
         deferredCallback (some (noAddressMsg 1)) 0) :=
  bindAsync_reply_policy.2.1 envAllFail "80" [SubchannelAddress.tcp "127.0.0.1" 80]
    { port := 80, count := 0 } (by simp) rfl rfl

/-- C5: a stream with a valid content type whose path has no registered
handler gets the error sent on a degenerate CallStream with status
UNIMPLEMENTED and details `The server does not implement the method
<path>`, with the failure counters of the server and the session both
incremented and no handler dispatched; and any dispatch error lacking a
code is assigned INTERNAL before being sent. -/
theorem unimplemented_path_error_and_internal_code :
    (∀ (handlers : HandlerMap) (t st : CallTracker) (hd : Headers)
       (dt : Option ErrObj),
       validContentType hd.contentType = true →
       mapGet handlers hd.path = none →
       handleStream handlers t (some st) hd dt =
         { action := StreamAction.sentError true
             { code := some Status.UNIMPLEMENTED,
               details := "The server does not implement the method " ++ hd.path },
           tracker := addCallFailed (addCallStarted t),
           sessionTracker := some (addCallFailed (addCallStarted st)) }) ∧
    (∀ (handlers : HandlerMap) (t : CallTracker) (st : Option CallTracker)
       (hd : Headers) (h : Handler) (d : String),
       validContentType hd.contentType = true →
       mapGet handlers hd.path = some h →
       (handleStream handlers t st hd (some { code := none, details := d })).action
         = StreamAction.sentError false { code := some Status.INTERNAL, details := d }) := by
  constructor
  · intro handlers t st hd dt hv hg
    simp [handleStream, hv, hg, fixErrorCode, getUnimplementedStatusResponse]
  · intro handlers t st hd h d hv hg
    simp [handleStream, hv, hg, fixErrorCode]

/-- C5 witness: an unregistered path on an empty handler map, with both
trackers starting at zero. -/
theorem unimplemented_path_error_and_internal_code_witness :
    handleStream [] { callsStarted := 0, callsSucceeded := 0, callsFailed := 0 }
        (some { callsStarted := 0, callsSucceeded := 0, callsFailed := 0 })
        { contentType := some "application/grpc", path := "/demo.S/Missing" } none
      = { action := StreamAction.sentError true
            { code := some Status.UNIMPLEMENTED,
              details := "The server does not implement the method " ++ "/demo.S/Missing" },
          tracker := addCallFailed (addCallStarted
            { callsStarted := 0, callsSucceeded := 0, callsFailed := 0 }),
          sessionTracker := some (addCallFailed (addCallStarted
            { callsStarted := 0, callsSucceeded := 0, callsFailed := 0 })) } :=
  unimplemented_path_error_and_internal_code.1 []
    { callsStarted := 0, callsSucceeded := 0, callsFailed := 0 }
    { callsStarted := 0, callsSucceeded := 0, callsFailed := 0 }
    { contentType := some "application/grpc", path := "/demo.S/Missing" } none rfl rfl

/-- C7: a stream whose content-type header is missing or does not begin
with `application/grpc` is answered with HTTP 415 ending the stream,
callsFailed is incremented on the server tracker and the session's stream
tracker, and no handler is dispatched. -/
theorem invalid_content_type_rejected :
    ∀ (handlers : HandlerMap) (t st : CallTracker) (hd : Headers)
      (dt : Option ErrObj),
      validContentType hd.contentType = false →
      handleStream handlers t (some st) hd dt =
        { action := StreamAction.respond415EndStream,
          tracker := addCallFailed (addCallStarted t),
          sessionTracker := some (addCallFailed (addCallStarted st)) } := by
  intro handlers t st hd dt hv
  simp [handleStream, hv]

/-- C7 witness: content type `application/json` is rejected with 415 and
both failure counters incremented. -/
theorem invalid_content_type_rejected_witness :
    handleStream [] { callsStarted := 0, callsSucceeded := 0, callsFailed := 0 }
        (some { callsStarted := 0, callsSucceeded := 0, callsFailed := 0 })
        { contentType := some "application/json", path := "/demo.S/Echo" } none
      = { action := StreamAction.respond415EndStream,
          tracker := addCallFailed (addCallStarted
            { callsStarted := 0, callsSucceeded := 0, callsFailed := 0 }),
          sessionTracker := some (addCallFailed (addCallStarted
            { callsStarted := 0, callsSucceeded := 0, callsFailed := 0 })) } :=
  invalid_content_type_rejected []
    { callsStarted := 0, callsSucceeded := 0, callsFailed := 0 }
    { callsStarted := 0, callsSucceeded := 0, callsFailed := 0 }
    { contentType := some "application/json", path := "/demo.S/Echo" } none (by decide)

/-- C8: bindAsync called while started throws `server is already started`
synchronously (so the callback is never invoked and no resolver or listener
is created), and every user-callback invocation the resolution listener can
produce carries the next-tick tag, never a synchronous one. -/
theorem bindAsync_started_guard_and_deferred_callbacks :
    (∀ (port : JsVal) (creds : CredsArg) (cb : JsVal) (pOk sOk : String → Bool),
       bindAsyncSync true port creds cb pOk sOk
         = Except.error (BindSyncError.plainError "server is already started")) ∧
    (∀ (env : ListenEnv) (port : String) (l : List SubchannelAddress),
       (onSuccessfulResolution env port l).2.tick = Tick.next) ∧
    (∀ d : String, (onResolutionError d).tick = Tick.next) := by
  refine ⟨fun port creds cb pOk sOk => rfl, ?_, fun d => rfl⟩
  intro env port l
  unfold onSuccessfulResolution
  cases he : l.isEmpty with
  | true => simp [he, deferredCallback]
  | false =>
    simp only [he, Bool.false_eq_true, if_false]
    exact bindReply_tick _ _

/-- C10: with the server not yet started, bindAsync validates its arguments
synchronously: a non-string port fails with TypeError `port must be a
string`; a null or non-ServerCredentials creds fails with TypeError `creds
must be a ServerCredentials object`; a non-function callback fails with
TypeError `callback must be a function`.  Each failure is an exception of
the synchronous phase, before the resolver (and hence any listener or
callback invocation) is created. -/
theorem bindAsync_argument_validation :
    ∀ (port : JsVal) (creds : CredsArg) (cb : JsVal) (pOk sOk : String → Bool),
      (port.isString = false →
        bindAsyncSync false port creds cb pOk sOk
          = Except.error (BindSyncError.typeError "port must be a string")) ∧
      (port.isString = true → credsInvalid creds = true →
        bindAsyncSync false port creds cb pOk sOk
          = Except.error (BindSyncError.typeError "creds must be a ServerCredentials object")) ∧
      (port.isString = true → credsInvalid creds = false → cb.isFunction = false →
        bindAsyncSync false port creds cb pOk sOk
          = Except.error (BindSyncError.typeError "callback must be a function")) := by
  intro port creds cb pOk sOk
  refine ⟨?_, ?_, ?_⟩
  · intro h
    simp [bindAsyncSync, h]
  · intro h1 h2
    simp [bindAsyncSync, h1, h2]
  · intro h1 h2 h3
    simp [bindAsyncSync, h1, h2, h3]

/-- C10 witness: a numeric port argument is rejected with the TypeError
`port must be a string`. -/
theorem bindAsync_argument_validation_witness :
    bindAsyncSync false (JsVal.num 80) CredsArg.serverCredentials JsVal.fn alwaysTrue alwaysTrue
      = Except.error (BindSyncError.typeError "port must be a string") :=
  (bindAsync_argument_validation (JsVal.num 80) CredsArg.serverCredentials JsVal.fn
      alwaysTrue alwaysTrue).1 rfl

end GrpcJs
